import Mathlib

/-!
Shallow embedding of the deployment risk calculator action
(`.github/actions/risk-calculator/index.js` from the repository's
tutorial source).  JavaScript numbers are modelled exactly as
`JSNum`: a rational value, `NaN`, or a signed infinity; the IEEE
special-value propagation rules that the pipeline can exercise
(NaN absorption, comparisons with NaN being false, division by
zero) are reproduced.  The `Math.random()` draws are passed in
explicitly as rational parameters in `[0, 1)`.  The wall-clock
timestamp field of the analysis object is omitted: it is the one
field the specification itself excludes from all equalities.
-/

/-- Model of a JavaScript number: NaN, +Infinity, -Infinity, or a
(rational) numeric value.  Signed zero is not distinguished; it is
unobservable in this program. -/
inductive JSNum where
  | nan : JSNum
  | inf : JSNum
  | ninf : JSNum
  | num : ℚ → JSNum
deriving DecidableEq

namespace JSNum

/-- JavaScript `+` on numbers. -/
def jsAdd : JSNum → JSNum → JSNum
  | nan, _ => nan
  | _, nan => nan
  | inf, ninf => nan
  | ninf, inf => nan
  | inf, _ => inf
  | _, inf => inf
  | ninf, _ => ninf
  | _, ninf => ninf
  | num a, num b => num (a + b)

/-- JavaScript `*` on numbers. -/
def jsMul : JSNum → JSNum → JSNum
  | nan, _ => nan
  | _, nan => nan
  | inf, inf => inf
  | inf, ninf => ninf
  | ninf, inf => ninf
  | ninf, ninf => inf
  | inf, num b => if b = 0 then nan else if 0 < b then inf else ninf
  | num a, inf => if a = 0 then nan else if 0 < a then inf else ninf
  | ninf, num b => if b = 0 then nan else if 0 < b then ninf else inf
  | num a, ninf => if a = 0 then nan else if 0 < a then ninf else inf
  | num a, num b => num (a * b)

/-- JavaScript `/` on numbers (division by zero gives a signed
infinity, `0/0` gives NaN). -/
def jsDiv : JSNum → JSNum → JSNum
  | nan, _ => nan
  | _, nan => nan
  | inf, inf => nan
  | inf, ninf => nan
  | ninf, inf => nan
  | ninf, ninf => nan
  | inf, num b => if 0 ≤ b then inf else ninf
  | ninf, num b => if 0 ≤ b then ninf else inf
  | num _, inf => num 0
  | num _, ninf => num 0
  | num a, num b =>
      if b = 0 then (if a = 0 then nan else if 0 < a then inf else ninf)
      else num (a / b)

/-- JavaScript `Math.min` (returns NaN if either argument is NaN). -/
def jsMin : JSNum → JSNum → JSNum
  | nan, _ => nan
  | _, nan => nan
  | ninf, _ => ninf
  | _, ninf => ninf
  | inf, b => b
  | a, inf => a
  | num a, num b => num (min a b)

/-- JavaScript `Math.round`: round half toward positive infinity,
i.e. `⌊x + 1/2⌋` on numeric values; NaN and infinities pass through. -/
def jsRound : JSNum → JSNum
  | nan => nan
  | inf => inf
  | ninf => ninf
  | num q => num ((⌊q + 1/2⌋ : ℤ) : ℚ)

/-- JavaScript `x >= y` (false whenever either side is NaN). -/
def jsGe : JSNum → JSNum → Bool
  | nan, _ => false
  | _, nan => false
  | inf, _ => true
  | num _, inf => false
  | ninf, inf => false
  | ninf, ninf => true
  | ninf, num _ => false
  | num _, ninf => true
  | num a, num b => decide (b ≤ a)

/-- JavaScript `x > y` (false whenever either side is NaN). -/
def jsGt : JSNum → JSNum → Bool
  | nan, _ => false
  | _, nan => false
  | inf, inf => false
  | inf, _ => true
  | num _, inf => false
  | ninf, _ => false
  | num _, ninf => true
  | num a, num b => decide (b < a)

/-- JavaScript `Number.prototype.toString` restricted to the values
this program can print: NaN, infinities and integers print exactly
as in JavaScript; a non-integer rational (never printed by the
program) falls back to its integer part's digits. -/
def jsToStr : JSNum → String
  | nan => "NaN"
  | inf => "Infinity"
  | ninf => "-Infinity"
  | num q => toString q.num ++ (if q.den = 1 then "" else "/" ++ toString q.den)

end JSNum

open JSNum

/-- One leading decimal digit run: `parseIntDigits cs` is the value of
the longest prefix of decimal digits of `cs`, or `none` if `cs` does
not start with a digit.  (`acc` is the value read so far.) -/
def parseIntDigits (acc : ℕ) : List Char → ℕ
  | [] => acc
  | c :: cs => if c.isDigit then parseIntDigits (acc * 10 + (c.toNat - 48)) cs else acc

/-- `parseInt(s, 10)`: skip leading whitespace, read an optional sign,
then the longest run of decimal digits; NaN when no digit follows. -/
def parseIntJS (s : String) : JSNum :=
  let cs := s.data.dropWhile (fun c => c.isWhitespace)
  match cs with
  | '-' :: rest =>
      match rest with
      | c :: _ => if c.isDigit then num (-(parseIntDigits 0 rest : ℤ) : ℚ) else nan
      | [] => nan
  | '+' :: rest =>
      match rest with
      | c :: _ => if c.isDigit then num ((parseIntDigits 0 rest : ℕ) : ℚ) else nan
      | [] => nan
  | c :: _ => if c.isDigit then num ((parseIntDigits 0 cs : ℕ) : ℚ) else nan
  | [] => nan

/-- `String.prototype.split(',')` on the character list: cut at every
comma; `acc` holds the (reversed) characters of the current piece. -/
def splitCommaAux (acc : List Char) : List Char → List (List Char)
  | [] => [acc.reverse]
  | c :: cs => if c = ',' then acc.reverse :: splitCommaAux [] cs else splitCommaAux (c :: acc) cs

/-- `String.prototype.trim()`: drop leading and trailing whitespace. -/
def trimChars (cs : List Char) : List Char :=
  ((cs.dropWhile fun c => c.isWhitespace).reverse.dropWhile fun c => c.isWhitespace).reverse

/-- `core.getInput('critical-paths').split(',').map(p => p.trim()).filter(Boolean)`:
split on commas, trim each piece, drop empty strings (the falsy ones). -/
def parseCriticalPaths (s : String) : List String :=
  (((splitCommaAux [] s.data).map fun cs => String.mk (trimChars cs)).filter
    fun p => p ≠ "")

/-- The fields of `github.context.payload.pull_request` the action
reads.  Each is an optional non-negative integer (absent when the
event payload carries no pull request data for it). -/
structure PRContext where
  changed_files : Option ℕ
  additions : Option ℕ
  deletions : Option ℕ
deriving DecidableEq

/-- The four `Math.random()` draws the action can consume, each a
rational in `[0, 1)` on a real run, passed explicitly. -/
structure RandDraws where
  rFiles : ℚ
  rAdds : ℚ
  rDels : ℚ
  rCrit : ℚ
deriving DecidableEq

/-- `Math.floor(Math.random() * 30) + 1` with draw `r`. -/
def fbFiles (r : ℚ) : ℚ := ((⌊r * 30⌋ : ℤ) : ℚ) + 1

/-- `Math.floor(Math.random() * 400) + 50` with draw `r`. -/
def fbAdds (r : ℚ) : ℚ := ((⌊r * 400⌋ : ℤ) : ℚ) + 50

/-- `Math.floor(Math.random() * 200) + 20` with draw `r`. -/
def fbDels (r : ℚ) : ℚ := ((⌊r * 200⌋ : ℤ) : ℚ) + 20

/-- JavaScript `prContext?.field || fallback`: the fallback is taken
when the context is absent, the field is absent, or the field is `0`
(zero is falsy under `||`). -/
def fieldOr (pr : Option PRContext) (get : PRContext → Option ℕ) (fb : ℚ) : ℚ :=
  match pr with
  | none => fb
  | some p =>
      match get p with
      | none => fb
      | some n => if n = 0 then fb else (n : ℚ)

/-- The normalized change metrics (`metrics` in the analysis object). -/
structure Metrics where
  filesChanged : ℚ
  additions : ℚ
  deletions : ℚ
  totalLines : ℚ
deriving DecidableEq

/-- Lines 142–147 of the source: each raw field is taken from the PR
context when present and truthy, otherwise replaced by its bounded
pseudo-random fallback; `totalLines = additions + deletions`. -/
def normalizeMetrics (pr : Option PRContext) (rnd : RandDraws) : Metrics :=
  let filesChanged := fieldOr pr PRContext.changed_files (fbFiles rnd.rFiles)
  let additions := fieldOr pr PRContext.additions (fbAdds rnd.rAdds)
  let deletions := fieldOr pr PRContext.deletions (fbDels rnd.rDels)
  { filesChanged := filesChanged
    additions := additions
    deletions := deletions
    totalLines := additions + deletions }

/-- A factor's `value`/`threshold` field: a number or a string
(`'Yes'`, `'No'`, `'N/A'`, `'50%'`, a percentage). -/
inductive FVal where
  | n : JSNum → FVal
  | s : String → FVal
deriving DecidableEq

/-- One entry of the `factors` array. -/
structure RiskFactor where
  name : String
  value : FVal
  threshold : FVal
  score : JSNum
  impact : String
deriving DecidableEq

/-- The analysis object (minus the wall-clock `timestamp`). -/
structure RunResult where
  riskScore : JSNum
  riskLevel : String
  factors : List RiskFactor
  metrics : Metrics
  recommendation : String
  approvalRequired : String
deriving DecidableEq

/-- Factor 1 contribution: `Math.min((filesChanged / filesThreshold) * 30, 30)`. -/
def filesFactor (filesChanged : ℚ) (filesThreshold : JSNum) : JSNum :=
  jsMin (jsMul (jsDiv (num filesChanged) filesThreshold) (num 30)) (num 30)

/-- Factor 2 contribution: `Math.min((totalLines / linesThreshold) * 35, 35)`. -/
def linesFactor (totalLines : ℚ) (linesThreshold : JSNum) : JSNum :=
  jsMin (jsMul (jsDiv (num totalLines) linesThreshold) (num 35)) (num 35)

/-- Factor 3 gate: `criticalPaths.length > 0 && Math.random() > 0.6`.
The changed file paths are never consulted. -/
def touchesCritical (criticalPaths : List String) (rCrit : ℚ) : Bool :=
  decide (criticalPaths ≠ []) && decide ((3 : ℚ)/5 < rCrit)

/-- Factor 4 ratio: `deletions / (additions + 1)`. -/
def deletionRatio (additions deletions : ℚ) : JSNum :=
  jsDiv (num deletions) (jsAdd (num additions) (num 1))

/-- Lines 217–235 of the source: map the capped score to a risk
level with its recommendation and approval requirement, first match
wins going from `critical` down; every NaN comparison is false, so a
NaN score falls through to the final `else`. -/
def classify (riskScore : JSNum) : String × String × String :=
  if jsGe riskScore (num 75) then
    ("critical", "Deploy during maintenance window with full team availability",
      "VP approval required")
  else if jsGe riskScore (num 50) then
    ("high", "Deploy during low-traffic hours with rollback plan ready",
      "Senior engineer approval required")
  else if jsGe riskScore (num 25) then
    ("medium", "Standard deployment process with monitoring",
      "Peer review required")
  else
    ("low", "Safe to deploy anytime", "Standard review process")

/-- Lines 153–250 of the source: accumulate the four risk factors in
order, cap the rounded total at 100, and classify. -/
def scoreEngine (filesChanged additions deletions : ℚ)
    (filesThreshold linesThreshold : JSNum)
    (criticalPaths : List String) (rCrit : ℚ) : RunResult :=
  let totalLines := additions + deletions
  let f := filesFactor filesChanged filesThreshold
  let s1 := jsAdd (num 0) f
  let factor1 : RiskFactor :=
    { name := "Files Changed"
      value := FVal.n (num filesChanged)
      threshold := FVal.n filesThreshold
      score := jsRound f
      impact := if jsGt f (num 20) then "high" else if jsGt f (num 10) then "medium" else "low" }
  let l := linesFactor totalLines linesThreshold
  let s2 := jsAdd s1 l
  let factor2 : RiskFactor :=
    { name := "Lines Changed"
      value := FVal.n (num totalLines)
      threshold := FVal.n linesThreshold
      score := jsRound l
      impact := if jsGt l (num 25) then "high" else if jsGt l (num 15) then "medium" else "low" }
  let hit := touchesCritical criticalPaths rCrit
  let s3 := if hit then jsAdd s2 (num 25) else s2
  let factor3 : RiskFactor :=
    if hit then
      { name := "Critical Paths", value := FVal.s "Yes", threshold := FVal.s "N/A",
        score := num 25, impact := "high" }
    else
      { name := "Critical Paths", value := FVal.s "No", threshold := FVal.s "N/A",
        score := num 0, impact := "none" }
  let ratio := deletionRatio additions deletions
  let delHit := jsGt ratio (num (1/2))
  let s4 := if delHit then jsAdd s3 (num 10) else s3
  let delFactors : List RiskFactor :=
    if delHit then
      [{ name := "High Deletion Ratio"
         value := FVal.s (jsToStr (jsRound (jsMul ratio (num 100))) ++ "%")
         threshold := FVal.s "50%", score := num 10, impact := "medium" }]
    else []
  let riskScore := jsMin (jsRound s4) (num 100)
  let c := classify riskScore
  { riskScore := riskScore
    riskLevel := c.1
    factors := [factor1, factor2, factor3] ++ delFactors
    metrics := { filesChanged := filesChanged, additions := additions,
                 deletions := deletions, totalLines := totalLines }
    recommendation := c.2.1
    approvalRequired := c.2.2 }

/-- The action's inputs: the three configuration strings read with
`core.getInput`, and the optional pull-request payload. -/
structure Inputs where
  filesThresholdInput : String
  linesThresholdInput : String
  criticalPathsInput : String
  prContext : Option PRContext
deriving DecidableEq

/-- The whole `run` function of the action: parse configuration,
normalize metrics, score and classify. -/
def run (inp : Inputs) (rnd : RandDraws) : RunResult :=
  let m := normalizeMetrics inp.prContext rnd
  scoreEngine m.filesChanged m.additions m.deletions
    (parseIntJS inp.filesThresholdInput) (parseIntJS inp.linesThresholdInput)
    (parseCriticalPaths inp.criticalPathsInput) rnd.rCrit

/-- The `risk-score` output: `riskScore.toString()`. -/
def riskScoreOutput (r : RunResult) : String := jsToStr r.riskScore

/-- Rank of a risk level in the total order low < medium < high < critical. -/
def levelRank (l : String) : ℕ :=
  if l = "critical" then 3 else if l = "high" then 2 else if l = "medium" then 1 else 0

/-! ### Computation lemmas for the JavaScript number model -/

namespace JSNum

@[simp] theorem jsAdd_num_num (a b : ℚ) : jsAdd (num a) (num b) = num (a + b) := rfl

@[simp] theorem jsAdd_nan_left (x : JSNum) : jsAdd nan x = nan := by cases x <;> rfl

@[simp] theorem jsAdd_nan_right (x : JSNum) : jsAdd x nan = nan := by cases x <;> rfl

@[simp] theorem jsMul_num_num (a b : ℚ) : jsMul (num a) (num b) = num (a * b) := rfl

@[simp] theorem jsMul_nan_left (x : JSNum) : jsMul nan x = nan := by cases x <;> rfl

@[simp] theorem jsMul_nan_right (x : JSNum) : jsMul x nan = nan := by cases x <;> rfl

@[simp] theorem jsDiv_num_num (a b : ℚ) (h : b ≠ 0) :
    jsDiv (num a) (num b) = num (a / b) := by simp [jsDiv, h]

@[simp] theorem jsDiv_nan_left (x : JSNum) : jsDiv nan x = nan := by cases x <;> rfl

@[simp] theorem jsDiv_nan_right (x : JSNum) : jsDiv x nan = nan := by cases x <;> rfl

@[simp] theorem jsMin_num_num (a b : ℚ) : jsMin (num a) (num b) = num (min a b) := rfl

@[simp] theorem jsMin_nan_left (x : JSNum) : jsMin nan x = nan := by cases x <;> rfl

@[simp] theorem jsMin_nan_right (x : JSNum) : jsMin x nan = nan := by cases x <;> rfl

@[simp] theorem jsRound_num (q : ℚ) : jsRound (num q) = num ((⌊q + 1/2⌋ : ℤ) : ℚ) := rfl

@[simp] theorem jsRound_nan : jsRound nan = nan := rfl

@[simp] theorem jsGe_num_num (a b : ℚ) : jsGe (num a) (num b) = decide (b ≤ a) := rfl

@[simp] theorem jsGe_nan_left (x : JSNum) : jsGe nan x = false := by cases x <;> rfl

@[simp] theorem jsGe_nan_right (x : JSNum) : jsGe x nan = false := by cases x <;> rfl

@[simp] theorem jsGt_num_num (a b : ℚ) : jsGt (num a) (num b) = decide (b < a) := rfl

@[simp] theorem jsGt_nan_left (x : JSNum) : jsGt nan x = false := by cases x <;> rfl

@[simp] theorem jsGt_nan_right (x : JSNum) : jsGt x nan = false := by cases x <;> rfl

@[simp] theorem jsToStr_nan : jsToStr nan = "NaN" := rfl

end JSNum

/-- `classify` on a NaN score: every comparison is false, so it falls
through to the `low` branch. -/
theorem classify_nan :
    classify nan = ("low", "Safe to deploy anytime", "Standard review process") := by
  simp [classify]

/-- `classify` depends only on the numeric value of the score: the
branch taken is decided by the inclusive thresholds 75, 50, 25. -/
theorem classify_num (x : ℚ) :
    classify (num x) =
      if 75 ≤ x then
        ("critical", "Deploy during maintenance window with full team availability",
          "VP approval required")
      else if 50 ≤ x then
        ("high", "Deploy during low-traffic hours with rollback plan ready",
          "Senior engineer approval required")
      else if 25 ≤ x then
        ("medium", "Standard deployment process with monitoring",
          "Peer review required")
      else ("low", "Safe to deploy anytime", "Standard review process") := by
  simp [classify]

/-- The risk level of any run is the classification of its score. -/
theorem run_riskLevel_eq (inp : Inputs) (rnd : RandDraws) :
    (run inp rnd).riskLevel = (classify (run inp rnd).riskScore).1 := rfl

/-- `levelRank ∘ classify` is monotone on numeric scores. -/
theorem levelRank_classify_mono {x y : ℚ} (h : y ≤ x) :
    levelRank (classify (num y)).1 ≤ levelRank (classify (num x)).1 := by
  rw [classify_num, classify_num]
  split_ifs <;> simp_all [levelRank] <;> linarith

/-! ### Claims -/

/-- C1: for every integer score in [0, 100] the classifier assigns
exactly one level by inclusive lower bounds evaluated high to low:
`score ≥ 75` is critical, `[50, 75)` is high, `[25, 50)` is medium and
`< 25` is low, each with its fixed recommendation and approval string. -/
theorem claim1_classifier_levels (s : ℤ) (h0 : 0 ≤ s) (h100 : s ≤ 100) :
    (75 ≤ s → classify (num (s : ℚ)) =
      ("critical", "Deploy during maintenance window with full team availability",
        "VP approval required")) ∧
    (50 ≤ s → s < 75 → classify (num (s : ℚ)) =
      ("high", "Deploy during low-traffic hours with rollback plan ready",
        "Senior engineer approval required")) ∧
    (25 ≤ s → s < 50 → classify (num (s : ℚ)) =
      ("medium", "Standard deployment process with monitoring",
        "Peer review required")) ∧
    (s < 25 → classify (num (s : ℚ)) =
      ("low", "Safe to deploy anytime", "Standard review process")) := by
  have c75 : ((75 : ℚ) ≤ (s : ℚ)) ↔ 75 ≤ s := by exact_mod_cast Iff.rfl
  have c50 : ((50 : ℚ) ≤ (s : ℚ)) ↔ 50 ≤ s := by exact_mod_cast Iff.rfl
  have c25 : ((25 : ℚ) ≤ (s : ℚ)) ↔ 25 ≤ s := by exact_mod_cast Iff.rfl
  rw [classify_num]
  simp only [c75, c50, c25]
  refine ⟨fun h => ?_, fun h1 h2 => ?_, fun h1 h2 => ?_, fun h => ?_⟩ <;>
    split_ifs <;> first | rfl | omega

/-- Witness for C1 at score 80 (critical band). -/
theorem claim1_classifier_levels_witness :
    (0 : ℤ) ≤ 80 ∧ (80 : ℤ) ≤ 100 ∧
    classify (num ((80 : ℤ) : ℚ)) =
      ("critical", "Deploy during maintenance window with full team availability",
        "VP approval required") :=
  ⟨by norm_num, by norm_num,
    (claim1_classifier_levels 80 (by norm_num) (by norm_num)).1 (by norm_num)⟩

/-- C7: the level is a monotonic total function of the score: any two
engine runs whose numeric scores compare `score₁ ≥ score₂` have levels
comparing the same way under low < medium < high < critical. -/
theorem claim7_level_monotone (i1 i2 : Inputs) (r1 r2 : RandDraws) (x y : ℚ)
    (h1 : (run i1 r1).riskScore = num x) (h2 : (run i2 r2).riskScore = num y)
    (hxy : y ≤ x) :
    levelRank (run i2 r2).riskLevel ≤ levelRank (run i1 r1).riskLevel := by
  rw [run_riskLevel_eq, run_riskLevel_eq, h1, h2]
  exact levelRank_classify_mono hxy

/-- Witness for C7: a score-65 run classifies at least as high as a
score-2 run. -/
theorem claim7_level_monotone_witness :
    (run ⟨"20", "500", "", some ⟨some 40, some 600, some 1⟩⟩ ⟨0,0,0,0⟩).riskScore = num 65 ∧
    (run ⟨"20", "500", "", some ⟨some 1, some 1, some 1⟩⟩ ⟨0,0,0,0⟩).riskScore = num 2 ∧
    (2 : ℚ) ≤ 65 ∧
    levelRank (run ⟨"20", "500", "", some ⟨some 1, some 1, some 1⟩⟩ ⟨0,0,0,0⟩).riskLevel ≤
      levelRank (run ⟨"20", "500", "", some ⟨some 40, some 600, some 1⟩⟩ ⟨0,0,0,0⟩).riskLevel := by
  have hf : parseIntJS "20" = num 20 := by decide
  have hl : parseIntJS "500" = num 500 := by decide
  have hc : parseCriticalPaths "" = [] := by decide
  have h1 : (run ⟨"20", "500", "", some ⟨some 40, some 600, some 1⟩⟩ ⟨0,0,0,0⟩).riskScore
      = num 65 := by
    simp [run, normalizeMetrics, fieldOr, scoreEngine, filesFactor, linesFactor,
      touchesCritical, deletionRatio, classify, hf, hl, hc]
    norm_num
  have h2 : (run ⟨"20", "500", "", some ⟨some 1, some 1, some 1⟩⟩ ⟨0,0,0,0⟩).riskScore
      = num 2 := by
    simp [run, normalizeMetrics, fieldOr, scoreEngine, filesFactor, linesFactor,
      touchesCritical, deletionRatio, classify, hf, hl, hc]
    norm_num
  exact ⟨h1, h2, by norm_num,
    claim7_level_monotone _ _ _ _ 65 2 h1 h2 (by norm_num)⟩

/-- C3 (code bug): with an empty `criticalPaths` configuration a
`Critical Paths` factor still appears (score 0, impact none), and with
a non-empty configuration the 25-point hit is decided by the random
draw alone (`Math.random() > 0.6`), never by the changed file paths. -/
theorem claim3_critical_paths_bug :
    parseCriticalPaths "" = [] ∧
    ((run ⟨"20", "500", "", some ⟨some 5, some 10, some 1⟩⟩ ⟨0,0,0,0⟩).factors.map
      RiskFactor.name) = ["Files Changed", "Lines Changed", "Critical Paths"] ∧
    (run ⟨"20", "500", "", some ⟨some 5, some 10, some 1⟩⟩ ⟨0,0,0,0⟩).factors.getLast?
      = some ⟨"Critical Paths", FVal.s "No", FVal.s "N/A", num 0, "none"⟩ ∧
    touchesCritical ["src/"] (7/10) = true ∧ touchesCritical ["src/"] (1/2) = false := by
  have hf : parseIntJS "20" = num 20 := by decide
  have hl : parseIntJS "500" = num 500 := by decide
  have hc : parseCriticalPaths "" = [] := by decide
  refine ⟨hc, ?_, ?_, ?_, ?_⟩ <;>
    simp [run, normalizeMetrics, fieldOr, scoreEngine, filesFactor, linesFactor,
      touchesCritical, deletionRatio, classify, hf, hl, hc] <;> norm_num

/-- C4 (code bug): two invocations with identical explicit metrics and
identical configuration but different `Math.random()` draws disagree on
score (59 vs 34), level (high vs medium) and factors (Yes vs No). -/
theorem claim4_idempotence_bug :
    (run ⟨"20", "500", "src/payments", some ⟨some 20, some 50, some 1⟩⟩ ⟨0,0,0,7/10⟩).riskScore ≠
      (run ⟨"20", "500", "src/payments", some ⟨some 20, some 50, some 1⟩⟩ ⟨0,0,0,1/2⟩).riskScore ∧
    (run ⟨"20", "500", "src/payments", some ⟨some 20, some 50, some 1⟩⟩ ⟨0,0,0,7/10⟩).riskLevel ≠
      (run ⟨"20", "500", "src/payments", some ⟨some 20, some 50, some 1⟩⟩ ⟨0,0,0,1/2⟩).riskLevel ∧
    (run ⟨"20", "500", "src/payments", some ⟨some 20, some 50, some 1⟩⟩ ⟨0,0,0,7/10⟩).factors ≠
      (run ⟨"20", "500", "src/payments", some ⟨some 20, some 50, some 1⟩⟩ ⟨0,0,0,1/2⟩).factors := by
  have hf : parseIntJS "20" = num 20 := by decide
  have hl : parseIntJS "500" = num 500 := by decide
  have hc : parseCriticalPaths "src/payments" = ["src/payments"] := by decide
  refine ⟨?_, ?_, ?_⟩ <;>
    simp [run, normalizeMetrics, fieldOr, scoreEngine, filesFactor, linesFactor,
      touchesCritical, deletionRatio, classify, hf, hl, hc] <;>
    (try norm_num) <;> (try decide)

/-- C8 (code bug): a negative threshold input parses fine, is never
rejected, and silently yields a negative files contribution (-15) and
a negative final score (-14) classified `low` — no fail-fast occurs. -/
theorem claim8_threshold_validation_bug :
    parseIntJS "-10" = num (-10) ∧
    filesFactor 5 (num (-10)) = num (-15) ∧
    (run ⟨"-10", "500", "", some ⟨some 5, some 10, some 1⟩⟩ ⟨0,0,0,0⟩).riskScore = num (-14) ∧
    (run ⟨"-10", "500", "", some ⟨some 5, some 10, some 1⟩⟩ ⟨0,0,0,0⟩).riskLevel = "low" := by
  have hf : parseIntJS "-10" = num (-10) := by decide
  have hl : parseIntJS "500" = num 500 := by decide
  have hc : parseCriticalPaths "" = [] := by decide
  refine ⟨hf, ?_, ?_, ?_⟩ <;>
    simp [run, normalizeMetrics, fieldOr, scoreEngine, filesFactor, linesFactor,
      touchesCritical, deletionRatio, classify, hf, hl, hc] <;> norm_num

/-- Counterexample to C6 as stated: all three raw fields are present
(`changed_files = 0`, `additions = 5`, `deletions = 3`) yet
`filesChanged` is not used unchanged — `0` is falsy under `||`, so the
random fallback (here 16) replaces it. -/
theorem claim6_zero_field_counterexample :
    (normalizeMetrics (some ⟨some 0, some 5, some 3⟩) ⟨1/2, 0, 0, 0⟩).filesChanged = 16 ∧
    (normalizeMetrics (some ⟨some 0, some 5, some 3⟩) ⟨1/2, 0, 0, 0⟩).filesChanged ≠ 0 := by
  constructor <;> simp [normalizeMetrics, fieldOr, fbFiles] <;> norm_num

/-- C5: the deletion-ratio dimension appears in `factors` iff
`deletions / (additions + 1) > 0.5`, in which case it contributes
exactly 10 with impact `medium`; the `+1` keeps the ratio a number
even when `additions = 0`. -/
theorem claim5_deletion_ratio (fc : ℚ) (ad de : ℕ) (ft lt : JSNum)
    (cps : List String) (rc : ℚ) :
    deletionRatio (ad : ℚ) (de : ℚ) = num ((de : ℚ) / ((ad : ℚ) + 1)) ∧
    ((∃ f ∈ (scoreEngine fc (ad : ℚ) (de : ℚ) ft lt cps rc).factors,
        f.name = "High Deletion Ratio") ↔ (1 : ℚ)/2 < (de : ℚ) / ((ad : ℚ) + 1)) ∧
    (∀ f ∈ (scoreEngine fc (ad : ℚ) (de : ℚ) ft lt cps rc).factors,
        f.name = "High Deletion Ratio" → f.score = num 10 ∧ f.impact = "medium") := by
  have hden : ((ad : ℚ) + 1) ≠ 0 := by positivity
  have hdr : deletionRatio (ad : ℚ) (de : ℚ) = num ((de : ℚ) / ((ad : ℚ) + 1)) := by
    simp [deletionRatio, hden]
  refine ⟨hdr, ?_, ?_⟩ <;>
    by_cases hlt : (1 : ℚ)/2 < (de : ℚ) / ((ad : ℚ) + 1) <;>
    by_cases htc : touchesCritical cps rc <;>
    simp [scoreEngine, hdr, hlt, htc] <;>
    (constructor
     · rintro ⟨a, ⟨h, _⟩, _⟩
       exact h
     · intro h
       exact ⟨_, ⟨h, rfl⟩, rfl⟩)

/-- Engine evaluation behind C9: with `filesChanged = 40`,
`additions = 600`, thresholds 20/500, no critical paths, and any
deletions value in the fallback range `[20, 219]`, the files factor
caps at 30, the lines factor caps at 35, the deletion-ratio dimension
is absent, and the score is 65, level high. -/
theorem scoreEngine_c9_eval (d rc : ℚ) (h20 : 20 ≤ d) (h219 : d ≤ 219) :
    (scoreEngine 40 600 d (num 20) (num 500) [] rc).riskScore = num 65 ∧
    (scoreEngine 40 600 d (num 20) (num 500) [] rc).riskLevel = "high" ∧
    ((scoreEngine 40 600 d (num 20) (num 500) [] rc).factors.map RiskFactor.name)
      = ["Files Changed", "Lines Changed", "Critical Paths"] ∧
    (∃ f ∈ (scoreEngine 40 600 d (num 20) (num 500) [] rc).factors,
      f.name = "Files Changed" ∧ f.score = num 30) ∧
    (∃ f ∈ (scoreEngine 40 600 d (num 20) (num 500) [] rc).factors,
      f.name = "Lines Changed" ∧ f.score = num 35) := by
  have hfiles : filesFactor 40 (num 20) = num 30 := by
    simp [filesFactor]
    norm_num
  have h35 : (35 : ℚ) ≤ (600 + d)/500*35 := by
    rw [div_mul_eq_mul_div, le_div_iff₀ (by norm_num : (0:ℚ) < 500)]
    linarith
  have hlines : linesFactor (600 + d) (num 500) = num 35 := by
    simp [linesFactor, min_eq_right h35]
  have hr2 : ¬ ((2:ℚ)⁻¹ < d / (600 + 1)) := by
    rw [not_lt, inv_eq_one_div,
      div_le_div_iff₀ (by norm_num : (0:ℚ) < 600 + 1) (by norm_num : (0:ℚ) < 2)]
    linarith
  have hratio : deletionRatio 600 d = num (d/(600 + 1)) := by
    simp [deletionRatio]
    norm_num
  refine ⟨?_, ?_, ?_, ?_, ?_⟩ <;>
    simp [scoreEngine, hfiles, hlines, hratio, touchesCritical, classify, hr2] <;>
    norm_num

/-- C9: the boundary scenario `filesChanged = 40`, `additions = 600`,
`deletions = 0` with thresholds 20/500 and no critical paths gives a
files contribution capped at 30, a lines contribution capped at 35,
no deletion-ratio factor, and score 65 with level high — for every
random draw in `[0, 1)` (the explicit `deletions = 0` is falsy, so the
code substitutes a fallback in `[20, 219]`, which cannot change any of
these facts). -/
theorem claim9_boundary_scenario (rnd : RandDraws)
    (h0 : 0 ≤ rnd.rDels) (h1 : rnd.rDels < 1) :
    (run ⟨"20", "500", "", some ⟨some 40, some 600, some 0⟩⟩ rnd).riskScore = num 65 ∧
    (run ⟨"20", "500", "", some ⟨some 40, some 600, some 0⟩⟩ rnd).riskLevel = "high" ∧
    ((run ⟨"20", "500", "", some ⟨some 40, some 600, some 0⟩⟩ rnd).factors.map
      RiskFactor.name) = ["Files Changed", "Lines Changed", "Critical Paths"] ∧
    (∃ f ∈ (run ⟨"20", "500", "", some ⟨some 40, some 600, some 0⟩⟩ rnd).factors,
      f.name = "Files Changed" ∧ f.score = num 30) ∧
    (∃ f ∈ (run ⟨"20", "500", "", some ⟨some 40, some 600, some 0⟩⟩ rnd).factors,
      f.name = "Lines Changed" ∧ f.score = num 35) := by
  have hf : parseIntJS "20" = num 20 := by decide
  have hl : parseIntJS "500" = num 500 := by decide
  have hc : parseCriticalPaths "" = [] := by decide
  have hfl : (0 : ℤ) ≤ ⌊rnd.rDels * 200⌋ := by
    rw [Int.le_floor]
    push_cast
    positivity
  have hfu : ⌊rnd.rDels * 200⌋ ≤ 199 := by
    have : ⌊rnd.rDels * 200⌋ < 200 := by
      rw [Int.floor_lt]
      push_cast
      nlinarith
    omega
  have h20 : (20 : ℚ) ≤ fbDels rnd.rDels := by
    unfold fbDels
    have : (0 : ℚ) ≤ (⌊rnd.rDels * 200⌋ : ℚ) := by exact_mod_cast hfl
    linarith
  have h219 : fbDels rnd.rDels ≤ 219 := by
    unfold fbDels
    have : ((⌊rnd.rDels * 200⌋ : ℤ) : ℚ) ≤ 199 := by exact_mod_cast hfu
    linarith
  have hrun : run ⟨"20", "500", "", some ⟨some 40, some 600, some 0⟩⟩ rnd
      = scoreEngine 40 600 (fbDels rnd.rDels) (num 20) (num 500) [] rnd.rCrit := by
    simp [run, normalizeMetrics, fieldOr, hf, hl, hc]
  rw [hrun]
  exact scoreEngine_c9_eval (fbDels rnd.rDels) rnd.rCrit h20 h219

/-- Witness for C9 at the zero random draw. -/
theorem claim9_boundary_scenario_witness :
    (0 : ℚ) ≤ 0 ∧ (0 : ℚ) < 1 ∧
    (run ⟨"20", "500", "", some ⟨some 40, some 600, some 0⟩⟩ ⟨0,0,0,0⟩).riskScore = num 65 ∧
    (run ⟨"20", "500", "", some ⟨some 40, some 600, some 0⟩⟩ ⟨0,0,0,0⟩).riskLevel = "high" :=
  ⟨le_refl 0, by norm_num,
    (claim9_boundary_scenario ⟨0,0,0,0⟩ (le_refl 0) (by norm_num)).1,
    (claim9_boundary_scenario ⟨0,0,0,0⟩ (le_refl 0) (by norm_num)).2.1⟩

/-- C2: for non-negative integer metrics and positive thresholds, the
files contribution lies in `[0, 30]`, the lines contribution in
`[0, 35]`, the critical-path contribution is 0 or 25 (25 exactly when
the gate fires), the deletion contribution is 0 or 10 (10 exactly when
the ratio exceeds one half), their sum is at most `30+35+25+10 = 100`,
and the final score is the integer `min ⌊sum + 1/2⌋ 100`, which lies
in `[0, 100]`. -/
theorem claim2_score_bounds (fc ad de : ℕ) (ft lt : ℤ) (hft : 0 < ft) (hlt : 0 < lt)
    (cps : List String) (rc : ℚ) :
    ∃ a b c d : ℚ,
      filesFactor (fc : ℚ) (num (ft : ℚ)) = num a ∧ 0 ≤ a ∧ a ≤ 30 ∧
      linesFactor ((ad : ℚ) + (de : ℚ)) (num (lt : ℚ)) = num b ∧ 0 ≤ b ∧ b ≤ 35 ∧
      (c = 0 ∨ c = 25) ∧ (c = 25 ↔ touchesCritical cps rc = true) ∧
      (d = 0 ∨ d = 10) ∧ (d = 10 ↔ (1:ℚ)/2 < (de : ℚ)/((ad : ℚ)+1)) ∧
      a + b + c + d ≤ 100 ∧
      ∃ z : ℤ,
        (scoreEngine (fc : ℚ) (ad : ℚ) (de : ℚ) (num (ft : ℚ)) (num (lt : ℚ)) cps rc).riskScore
          = num ((z : ℤ) : ℚ) ∧
        z = min ⌊a + b + c + d + 1/2⌋ 100 ∧ 0 ≤ z ∧ z ≤ 100 := by
  have hftQ : (0:ℚ) < (ft:ℚ) := by exact_mod_cast hft
  have hltQ : (0:ℚ) < (lt:ℚ) := by exact_mod_cast hlt
  have hfa : filesFactor (fc:ℚ) (num (ft:ℚ)) = num (min ((fc:ℚ)/(ft:ℚ)*30) 30) := by
    simp [filesFactor, ne_of_gt hftQ]
  have hfb : linesFactor ((ad:ℚ)+(de:ℚ)) (num (lt:ℚ))
      = num (min (((ad:ℚ)+(de:ℚ))/(lt:ℚ)*35) 35) := by
    simp [linesFactor, ne_of_gt hltQ]
  have hden : ((ad:ℚ)+1) ≠ 0 := by positivity
  have hratio : deletionRatio (ad:ℚ) (de:ℚ) = num ((de:ℚ)/((ad:ℚ)+1)) := by
    simp [deletionRatio, hden]
  set a := min ((fc:ℚ)/(ft:ℚ)*30) 30 with ha
  set b := min (((ad:ℚ)+(de:ℚ))/(lt:ℚ)*35) 35 with hb
  have ha0 : 0 ≤ a := le_min (by positivity) (by norm_num)
  have ha30 : a ≤ 30 := min_le_right _ _
  have hb0 : 0 ≤ b := le_min (by positivity) (by norm_num)
  have hb35 : b ≤ 35 := min_le_right _ _
  by_cases htc : touchesCritical cps rc <;>
    by_cases hdl : (1:ℚ)/2 < (de : ℚ)/((ad : ℚ)+1)
  · have hdl' := hdl
    rw [one_div] at hdl'
    refine ⟨a, b, 25, 10, hfa, ha0, ha30, hfb, hb0, hb35,
      Or.inr rfl, by simp [htc], Or.inr rfl, by simp [hdl'],
      by linarith, min ⌊a + b + 25 + 10 + 1/2⌋ 100, ?_, rfl, ?_, min_le_right _ _⟩
    · simp [scoreEngine, hfa, hfb, hratio, htc, hdl', ← ha, ← hb]
    · refine le_min ?_ (by norm_num)
      rw [Int.le_floor]
      push_cast
      linarith
  · have hdl' := hdl
    rw [one_div] at hdl'
    refine ⟨a, b, 25, 0, hfa, ha0, ha30, hfb, hb0, hb35,
      Or.inr rfl, by simp [htc], Or.inl rfl, by simp [hdl'],
      by linarith, min ⌊a + b + 25 + 0 + 1/2⌋ 100, ?_, rfl, ?_, min_le_right _ _⟩
    · simp [scoreEngine, hfa, hfb, hratio, htc, hdl', ← ha, ← hb]
    · refine le_min ?_ (by norm_num)
      rw [Int.le_floor]
      push_cast
      linarith
  · have hdl' := hdl
    rw [one_div] at hdl'
    refine ⟨a, b, 0, 10, hfa, ha0, ha30, hfb, hb0, hb35,
      Or.inl rfl, by simp [htc], Or.inr rfl, by simp [hdl'],
      by linarith, min ⌊a + b + 0 + 10 + 1/2⌋ 100, ?_, rfl, ?_, min_le_right _ _⟩
    · simp [scoreEngine, hfa, hfb, hratio, htc, hdl', ← ha, ← hb]
    · refine le_min ?_ (by norm_num)
      rw [Int.le_floor]
      push_cast
      linarith
  · have hdl' := hdl
    rw [one_div] at hdl'
    refine ⟨a, b, 0, 0, hfa, ha0, ha30, hfb, hb0, hb35,
      Or.inl rfl, by simp [htc], Or.inl rfl, by simp [hdl'],
      by linarith, min ⌊a + b + 0 + 0 + 1/2⌋ 100, ?_, rfl, ?_, min_le_right _ _⟩
    · simp [scoreEngine, hfa, hfb, hratio, htc, hdl', ← ha, ← hb]
    · refine le_min ?_ (by norm_num)
      rw [Int.le_floor]
      push_cast
      linarith

/-- Witness for C2 at a boundary input maximizing all four dimensions:
the raw sum is exactly 100 and the clamped score is 100. -/
theorem claim2_score_bounds_witness :
    (0 : ℤ) < 20 ∧ (0 : ℤ) < 500 ∧
    (∃ a b c d : ℚ,
      filesFactor ((20 : ℕ) : ℚ) (num ((20 : ℤ) : ℚ)) = num a ∧ 0 ≤ a ∧ a ≤ 30 ∧
      linesFactor (((100 : ℕ) : ℚ) + ((400 : ℕ) : ℚ)) (num ((500 : ℤ) : ℚ)) = num b ∧
        0 ≤ b ∧ b ≤ 35 ∧
      (c = 0 ∨ c = 25) ∧ (c = 25 ↔ touchesCritical ["src"] (7/10) = true) ∧
      (d = 0 ∨ d = 10) ∧ (d = 10 ↔ (1:ℚ)/2 < ((400 : ℕ) : ℚ)/(((100 : ℕ) : ℚ)+1)) ∧
      a + b + c + d ≤ 100 ∧
      ∃ z : ℤ,
        (scoreEngine ((20 : ℕ) : ℚ) ((100 : ℕ) : ℚ) ((400 : ℕ) : ℚ) (num ((20 : ℤ) : ℚ))
          (num ((500 : ℤ) : ℚ)) ["src"] (7/10)).riskScore = num ((z : ℤ) : ℚ) ∧
        z = min ⌊a + b + c + d + 1/2⌋ 100 ∧ 0 ≤ z ∧ z ≤ 100) ∧
    (scoreEngine ((20 : ℕ) : ℚ) ((100 : ℕ) : ℚ) ((400 : ℕ) : ℚ) (num ((20 : ℤ) : ℚ))
      (num ((500 : ℤ) : ℚ)) ["src"] (7/10)).riskScore = num 100 := by
  refine ⟨by norm_num, by norm_num,
    claim2_score_bounds 20 100 400 20 500 (by norm_num) (by norm_num) ["src"] (7/10), ?_⟩
  have htc : touchesCritical ["src"] (7/10) = true := by
    simp [touchesCritical]
    norm_num
  simp [scoreEngine, filesFactor, linesFactor, deletionRatio, touchesCritical, classify, htc]
  norm_num

/-- `fieldOr` uses a present, non-zero field unchanged. -/
theorem fieldOr_present (pr : Option PRContext) (p : PRContext)
    (get : PRContext → Option ℕ) (n : ℕ) (fb : ℚ)
    (h : pr = some p) (hg : get p = some n) (hn : n ≠ 0) :
    fieldOr pr get fb = (n : ℚ) := by
  subst h
  simp [fieldOr, hg, hn]

/-- `fieldOr` takes the fallback when the context is absent or the
field is absent or zero. -/
theorem fieldOr_fallback (pr : Option PRContext) (get : PRContext → Option ℕ) (fb : ℚ)
    (h : ∀ p, pr = some p → get p = none ∨ get p = some 0) :
    fieldOr pr get fb = fb := by
  rcases pr with _ | p
  · rfl
  · rcases h p rfl with h' | h' <;> simp [fieldOr, h']

/-- `⌊r * k⌋` lies in `[0, k - 1]` for a draw `r ∈ [0, 1)`. -/
theorem floor_scale_bounds (r : ℚ) (k : ℕ) (hk : 0 < k) (h0 : 0 ≤ r) (h1 : r < 1) :
    (0 : ℚ) ≤ ((⌊r * (k : ℚ)⌋ : ℤ) : ℚ) ∧ ((⌊r * (k : ℚ)⌋ : ℤ) : ℚ) ≤ (k : ℚ) - 1 := by
  have hkQ : (0 : ℚ) < (k : ℚ) := by exact_mod_cast hk
  have hl : (0 : ℤ) ≤ ⌊r * (k : ℚ)⌋ := by
    rw [Int.le_floor]
    push_cast
    positivity
  have hu : ⌊r * (k : ℚ)⌋ ≤ (k : ℤ) - 1 := by
    have : ⌊r * (k : ℚ)⌋ < (k : ℤ) := by
      rw [Int.floor_lt]
      push_cast
      nlinarith
    omega
  constructor
  · exact_mod_cast hl
  · have hc : ((⌊r * (k : ℚ)⌋ : ℤ) : ℚ) ≤ (((k : ℤ) - 1 : ℤ) : ℚ) := by exact_mod_cast hu
    push_cast at hc
    linarith

/-- C6 (amended): a raw field that is present *and non-zero* is used
unchanged; a field that is missing or zero (zero is falsy under `||`)
is replaced by its bounded pseudo-random fallback — `filesChanged` in
`[1, 30]`, `additions` in `[50, 449]`, `deletions` in `[20, 219]` —
and `totalLines` always equals `additions + deletions`. -/
theorem claim6_normalizer_amended (pr : Option PRContext) (rnd : RandDraws)
    (hf0 : 0 ≤ rnd.rFiles) (hf1 : rnd.rFiles < 1)
    (ha0 : 0 ≤ rnd.rAdds) (ha1 : rnd.rAdds < 1)
    (hd0 : 0 ≤ rnd.rDels) (hd1 : rnd.rDels < 1) :
    (normalizeMetrics pr rnd).totalLines
      = (normalizeMetrics pr rnd).additions + (normalizeMetrics pr rnd).deletions ∧
    (∀ p n, pr = some p → p.changed_files = some n → n ≠ 0 →
      (normalizeMetrics pr rnd).filesChanged = (n : ℚ)) ∧
    (∀ p n, pr = some p → p.additions = some n → n ≠ 0 →
      (normalizeMetrics pr rnd).additions = (n : ℚ)) ∧
    (∀ p n, pr = some p → p.deletions = some n → n ≠ 0 →
      (normalizeMetrics pr rnd).deletions = (n : ℚ)) ∧
    ((∀ p, pr = some p → p.changed_files = none ∨ p.changed_files = some 0) →
      1 ≤ (normalizeMetrics pr rnd).filesChanged ∧
        (normalizeMetrics pr rnd).filesChanged ≤ 30) ∧
    ((∀ p, pr = some p → p.additions = none ∨ p.additions = some 0) →
      50 ≤ (normalizeMetrics pr rnd).additions ∧
        (normalizeMetrics pr rnd).additions ≤ 449) ∧
    ((∀ p, pr = some p → p.deletions = none ∨ p.deletions = some 0) →
      20 ≤ (normalizeMetrics pr rnd).deletions ∧
        (normalizeMetrics pr rnd).deletions ≤ 219) := by
  refine ⟨rfl, ?_, ?_, ?_, ?_, ?_, ?_⟩
  · intro p n hp hg hn
    exact fieldOr_present pr p _ n _ hp hg hn
  · intro p n hp hg hn
    exact fieldOr_present pr p _ n _ hp hg hn
  · intro p n hp hg hn
    exact fieldOr_present pr p _ n _ hp hg hn
  · intro h
    have he : (normalizeMetrics pr rnd).filesChanged = fbFiles rnd.rFiles :=
      fieldOr_fallback pr _ _ h
    have hbnd := floor_scale_bounds rnd.rFiles 30 (by norm_num) hf0 hf1
    rw [he]
    unfold fbFiles
    push_cast at hbnd
    constructor <;> linarith [hbnd.1, hbnd.2]
  · intro h
    have he : (normalizeMetrics pr rnd).additions = fbAdds rnd.rAdds :=
      fieldOr_fallback pr _ _ h
    have hbnd := floor_scale_bounds rnd.rAdds 400 (by norm_num) ha0 ha1
    rw [he]
    unfold fbAdds
    push_cast at hbnd
    constructor <;> linarith [hbnd.1, hbnd.2]
  · intro h
    have he : (normalizeMetrics pr rnd).deletions = fbDels rnd.rDels :=
      fieldOr_fallback pr _ _ h
    have hbnd := floor_scale_bounds rnd.rDels 200 (by norm_num) hd0 hd1
    rw [he]
    unfold fbDels
    push_cast at hbnd
    constructor <;> linarith [hbnd.1, hbnd.2]

/-- Witness for C6 (amended): `changed_files = 3` present and non-zero
is kept; the missing `additions` falls back into `[50, 449]`. -/
theorem claim6_normalizer_amended_witness :
    (0 : ℚ) ≤ 1/2 ∧ (1/2 : ℚ) < 1 ∧
    (normalizeMetrics (some ⟨some 3, none, some 7⟩) ⟨1/2, 1/2, 1/2, 1/2⟩).totalLines
      = (normalizeMetrics (some ⟨some 3, none, some 7⟩) ⟨1/2, 1/2, 1/2, 1/2⟩).additions
        + (normalizeMetrics (some ⟨some 3, none, some 7⟩) ⟨1/2, 1/2, 1/2, 1/2⟩).deletions ∧
    (normalizeMetrics (some ⟨some 3, none, some 7⟩) ⟨1/2, 1/2, 1/2, 1/2⟩).filesChanged
      = ((3 : ℕ) : ℚ) ∧
    50 ≤ (normalizeMetrics (some ⟨some 3, none, some 7⟩) ⟨1/2, 1/2, 1/2, 1/2⟩).additions ∧
    (normalizeMetrics (some ⟨some 3, none, some 7⟩) ⟨1/2, 1/2, 1/2, 1/2⟩).additions ≤ 449 := by
  have h := claim6_normalizer_amended (some ⟨some 3, none, some 7⟩) ⟨1/2, 1/2, 1/2, 1/2⟩
    (by norm_num) (by norm_num) (by norm_num) (by norm_num) (by norm_num) (by norm_num)
  have hadd := h.2.2.2.2.2.1 (fun p hp => by cases hp; exact Or.inl rfl)
  exact ⟨by norm_num, by norm_num, h.1,
    h.2.1 _ 3 rfl rfl (by norm_num), hadd.1, hadd.2⟩

/-- C10: when a threshold input fails to parse (`parseInt` gives NaN)
the engine raises no error: the affected contribution is NaN, the
final score is NaN, the `risk-score` output is the string `"NaN"`, and
— every comparison with NaN being false — the level falls through to
`low` with recommendation `Safe to deploy anytime`. -/
theorem claim10_nan_threshold (ftS ltS cpS : String) (pr : Option PRContext)
    (rnd : RandDraws)
    (h : parseIntJS ftS = nan ∨ parseIntJS ltS = nan) :
    (parseIntJS ftS = nan →
      filesFactor (normalizeMetrics pr rnd).filesChanged (parseIntJS ftS) = nan) ∧
    (parseIntJS ltS = nan →
      linesFactor (normalizeMetrics pr rnd).totalLines (parseIntJS ltS) = nan) ∧
    (run ⟨ftS, ltS, cpS, pr⟩ rnd).riskScore = nan ∧
    riskScoreOutput (run ⟨ftS, ltS, cpS, pr⟩ rnd) = "NaN" ∧
    (run ⟨ftS, ltS, cpS, pr⟩ rnd).riskLevel = "low" ∧
    (run ⟨ftS, ltS, cpS, pr⟩ rnd).recommendation = "Safe to deploy anytime" := by
  have k1 : ∀ x : ℚ, filesFactor x nan = nan := fun x => by simp [filesFactor]
  have k2 : ∀ x : ℚ, linesFactor x nan = nan := fun x => by simp [linesFactor]
  have hscore : (run ⟨ftS, ltS, cpS, pr⟩ rnd).riskScore = nan := by
    rcases h with h | h <;>
      simp [run, scoreEngine, filesFactor, linesFactor, h]
  have hlev : (run ⟨ftS, ltS, cpS, pr⟩ rnd).riskLevel
      = (classify (run ⟨ftS, ltS, cpS, pr⟩ rnd).riskScore).1 := rfl
  have hrec : (run ⟨ftS, ltS, cpS, pr⟩ rnd).recommendation
      = (classify (run ⟨ftS, ltS, cpS, pr⟩ rnd).riskScore).2.1 := rfl
  exact ⟨fun hf => by rw [hf]; exact k1 _,
    fun hl => by rw [hl]; exact k2 _,
    hscore,
    by simp [riskScoreOutput, hscore],
    by rw [hlev, hscore, classify_nan],
    by rw [hrec, hscore, classify_nan]⟩

/-- Witness for C10 with the non-numeric threshold input `"abc"`. -/
theorem claim10_nan_threshold_witness :
    parseIntJS "abc" = nan ∧
    (run ⟨"abc", "500", "", some ⟨some 5, some 10, some 1⟩⟩ ⟨0,0,0,0⟩).riskScore = nan ∧
    riskScoreOutput (run ⟨"abc", "500", "", some ⟨some 5, some 10, some 1⟩⟩ ⟨0,0,0,0⟩)
      = "NaN" ∧
    (run ⟨"abc", "500", "", some ⟨some 5, some 10, some 1⟩⟩ ⟨0,0,0,0⟩).riskLevel = "low" := by
  have hp : parseIntJS "abc" = nan := by decide
  have h := claim10_nan_threshold "abc" "500" "" (some ⟨some 5, some 10, some 1⟩) ⟨0,0,0,0⟩
    (Or.inl hp)
  exact ⟨hp, h.2.2.1, h.2.2.2.1, h.2.2.2.2.1⟩
